import Mathlib

/-!
Shallow embedding of the cortex shared-memory service:
the error journal (`errorService`), the self-annealing job (`selfAnneal`
and its phases) and the context cache (`contextService`).

Timestamps are modelled as `Int` milliseconds since the epoch (the source
stores ISO-8601 strings whose lexicographic order agrees with chronological
order, and does all arithmetic in epoch milliseconds via `Date`).
Database tables are modelled as Lean lists of rows; query result lists are
taken in the order the query's `order by` clause produces.
-/

namespace Cortex

/-- `listHasSub hay needle` decides whether `needle` occurs as a contiguous
sublist of `hay`; used to model JavaScript `String.prototype.includes`. -/
def listHasSub (hay needle : List Char) : Bool :=
  match hay with
  | [] => needle.isEmpty
  | _ :: t => needle.isPrefixOf hay || listHasSub t needle

/-- Model of `message.includes(sub)` on JavaScript strings. -/
def strContains (hay needle : String) : Bool :=
  listHasSub hay.data needle.data

/-- Milliseconds in one hour. -/
def msPerHour : Int := 3600000

/-! ## Error journal (`src/services/errorService.ts`) -/

/-- One row of the `cortex_errors` table (interface `CortexError`). -/
structure ErrRow where
  id : String
  error_type : String
  service : String
  operation : String
  error_message : String
  pattern_id : Option String
  resolution : Option String
  resolved_at : Option Int
  auto_fixed : Bool
  created_at : Int
deriving Repr, DecidableEq

/-- A structured context payload value (the JSON `context` column). -/
inductive CtxVal where
  | nat : Nat → CtxVal
  | str : String → CtxVal
  | strList : List String → CtxVal
deriving Repr, DecidableEq

/-- Input to `errorService.logError` (interface `LogErrorInput`). -/
structure LogEntry where
  error_type : String
  service : String
  operation : String
  error_message : String
  pattern_id : Option String
  context : List (String × CtxVal)
deriving Repr, DecidableEq

/-- Options accepted by `errorService.resolveErrors`. -/
structure ResolveOpts where
  pattern_id : Option String
  error_ids : List String
  resolution : String
  auto_fixed : Option Bool
deriving Repr, DecidableEq

/-- The row update performed by `resolveErrors` on each matching row:
sets `resolution`, `resolved_at := now`, `auto_fixed := opts.auto_fixed ?? false`. -/
def applyResolution (opts : ResolveOpts) (now : Int) (r : ErrRow) : ErrRow :=
  { r with
    resolution := some opts.resolution
    resolved_at := some now
    auto_fixed := opts.auto_fixed.getD false }

/-- The `where` clause of `resolveErrors` in the `pattern_id` branch:
`resolved_at is null AND pattern_id = pid`. -/
def resolveMatchesPid (pid : String) (r : ErrRow) : Bool :=
  (r.resolved_at == none) && (r.pattern_id == some pid)

/-- The `where` clause of `resolveErrors` in the `error_ids` branch:
`resolved_at is null AND id in ids`. -/
def resolveMatchesIds (ids : List String) (r : ErrRow) : Bool :=
  (r.resolved_at == none) && ids.contains r.id

/-- `errorService.resolveErrors`: updates the matching unresolved rows and
returns the new table together with the number of rows updated
(the source returns `data.length` of the updated rows). -/
def resolveErrors (db : List ErrRow) (now : Int) (opts : ResolveOpts) :
    List ErrRow × Nat :=
  match opts.pattern_id with
  | some pid =>
      (db.map (fun r => if resolveMatchesPid pid r then applyResolution opts now r else r),
       db.countP (resolveMatchesPid pid))
  | none =>
      if opts.error_ids.isEmpty then (db, 0)
      else
        (db.map (fun r => if resolveMatchesIds opts.error_ids r then applyResolution opts now r else r),
         db.countP (resolveMatchesIds opts.error_ids))

/-- A derived error pattern (interface `ErrorPattern`). -/
structure ErrorPattern where
  error_type : String
  service : String
  operation : String
  pattern_id : Option String
  count : Nat
  latest_message : String
  first_seen : Int
  last_seen : Int
deriving Repr, DecidableEq

/-- The grouping key used by `getErrorPatterns`:
the (classification, service, operation) triple. -/
def rowKey (r : ErrRow) : String × String × String :=
  (r.error_type, r.service, r.operation)

/-- The grouping key of an already-built pattern. -/
def patKey (p : ErrorPattern) : String × String × String :=
  (p.error_type, p.service, p.operation)

/-- The first row of a group becomes the initial pattern aggregate. -/
def initPattern (r : ErrRow) : ErrorPattern :=
  { error_type := r.error_type
    service := r.service
    operation := r.operation
    pattern_id := r.pattern_id
    count := 1
    latest_message := r.error_message
    first_seen := r.created_at
    last_seen := r.created_at }

/-- Folding one more row of the same group into the aggregate
(the body of the `existing` branch of the grouping loop). -/
def updateGroup (g : ErrorPattern) (r : ErrRow) : ErrorPattern :=
  let g1 := { g with count := g.count + 1 }
  let g2 :=
    if r.created_at > g1.last_seen then
      { g1 with last_seen := r.created_at, latest_message := r.error_message }
    else g1
  if r.created_at < g2.first_seen then { g2 with first_seen := r.created_at } else g2

/-- Inserting one row into the accumulated group list: update the group with
the same key if present, otherwise append a fresh group (models the
`Map`-based grouping, which preserves insertion order). -/
def insertRow : List ErrorPattern → ErrRow → List ErrorPattern
  | [], r => [initPattern r]
  | g :: gs, r =>
      if patKey g = rowKey r then updateGroup g r :: gs
      else g :: insertRow gs r

/-- The grouping pass of `getErrorPatterns` over the selected rows. -/
def buildGroups (rows : List ErrRow) : List ErrorPattern :=
  rows.foldl insertRow []

/-- The sort order of `getErrorPatterns`: count descending
(`(a, b) => b.count - a.count`). -/
def countDesc (a b : ErrorPattern) : Prop := b.count ≤ a.count

instance : DecidableRel countDesc := fun a b => by
  unfold countDesc; infer_instance

instance : IsTotal ErrorPattern countDesc :=
  ⟨fun a b => Nat.le_total b.count a.count⟩

instance : IsTrans ErrorPattern countDesc :=
  ⟨fun _ _ _ hab hbc => Nat.le_trans hbc hab⟩

/-- The row filter of `getErrorPatterns`: created within the window and
unresolved (`created_at >= since AND resolved_at is null`). -/
def inWindowUnresolved (since : Int) (r : ErrRow) : Bool :=
  (since ≤ r.created_at) && (r.resolved_at == none)

/-- `errorService.getErrorPatterns(hours)`: selects the unresolved rows created
within the window, groups them by (error_type, service, operation), and sorts
the groups by count descending. -/
def getErrorPatterns (db : List ErrRow) (now : Int) (hours : Int) :
    List ErrorPattern :=
  let since := now - hours * msPerHour
  let rows := db.filter (inWindowUnresolved since)
  (buildGroups rows).insertionSort countDesc

/-! ## Self-annealing job (`src/jobs/handoffReminder.ts`, `selfAnneal`) -/

/-- A remediation's call to `errorService.resolveErrors` as issued by
`tryAutoFix` (the arguments it passes). -/
structure ResolveCall where
  pattern_id : Option String
  resolution : String
  auto_fixed : Bool
deriving Repr, DecidableEq

/-- `tryAutoFix(pattern)`: the fixed remediation decision table, applied in
source order with first match winning. Returns the learning string (if any)
and the list of `resolveErrors` calls issued (at most one). -/
def tryAutoFix (p : ErrorPattern) : Option String × List ResolveCall :=
  if p.error_type = "claude_error" && strContains p.latest_message "rate_limit" then
    (some ("Claude rate limit hit " ++ toString p.count ++ "x in " ++ p.service ++
      "." ++ p.operation ++
      ". Consider reducing batch sizes or adding longer delays between batches."),
     [{ pattern_id := p.pattern_id
        resolution := "Detected by self-anneal: rate limit pattern. Logged recommendation to reduce batch sizes."
        auto_fixed := true }])
  else if p.error_type = "budget_exceeded" then
    (some ("Budget exceeded " ++ toString p.count ++ "x for " ++ p.operation ++
      ". Consider increasing daily_token_budget for affected agent(s) in agent_config."),
     [{ pattern_id := p.pattern_id
        resolution := "Detected by self-anneal: recurring budget exceeded. Logged recommendation."
        auto_fixed := true }])
  else if p.error_type = "quality_issue" && decide (p.count ≥ 5) then
    (some ("Quality issue (" ++ p.operation ++ ") recurring " ++ toString p.count ++
      "x. Consider fallback to Claude Sonnet for this operation type."),
     [{ pattern_id := p.pattern_id
        resolution := "Detected by self-anneal: persistent quality issue. Recommend Sonnet fallback."
        auto_fixed := true }])
  else if decide (p.count ≥ 5) then
    (some ("Recurring " ++ p.error_type ++ " in " ++ p.service ++ "." ++ p.operation ++
      " (" ++ toString p.count ++ "x): \"" ++
      (p.latest_message.take 100) ++ "\""),
     [])
  else (none, [])

/-- Phase 1 of the self-annealing cycle, `handleErrorPatterns`: filter the
detected patterns to the recurring ones (count ≥ 3) and apply `tryAutoFix`
to each, collecting the learnings and the resolve calls issued. -/
def handleErrorPatterns (patterns : List ErrorPattern) :
    List String × List ResolveCall :=
  let recurring := patterns.filter (fun p => decide (p.count ≥ 3))
  recurring.foldl
    (fun acc p =>
      match tryAutoFix p with
      | (some l, cs) => (acc.1 ++ [l], acc.2 ++ cs)
      | (none, cs) => (acc.1, acc.2 ++ cs))
    ([], [])

/-- One row of the `interactions` table as selected by `checkSummaryQuality`. -/
structure InteractionRow where
  id : String
  summary : Option String
  raw_content : Option String
  created_at : Int
deriving Repr, DecidableEq

/-- JavaScript `String.prototype.trim()`: drop whitespace from both ends
(modelled over the character list). -/
def jsTrim (s : String) : List Char :=
  ((s.data.dropWhile Char.isWhitespace).reverse.dropWhile Char.isWhitespace).reverse

/-- The per-row empty-summary test of `checkSummaryQuality`:
`!row.summary || row.summary.trim().length === 0` (for a non-null summary,
the empty string is falsy and also trims to length 0). -/
def isEmptySummary (s : String) : Bool :=
  (jsTrim s).length == 0

/-- Phase 2 of the self-annealing cycle, `checkSummaryQuality`: sample the
10 most recent interactions having both a summary and raw content
(`interactions` is given newest-first, as the query orders it), count empty
and short summaries, and log one aggregated record per triggered condition.
Returns the learnings and the `logError` entries issued. -/
def checkSummaryQuality (interactions : List InteractionRow) :
    List String × List LogEntry :=
  let recentSummarized :=
    ((interactions.filter
        (fun r => r.summary.isSome && r.raw_content.isSome)).take 10)
  if recentSummarized.isEmpty then ([], [])
  else
    let emptySummaries :=
      recentSummarized.countP (fun r => isEmptySummary (r.summary.getD ""))
    let shortSummaries :=
      recentSummarized.countP (fun r =>
        !isEmptySummary (r.summary.getD "") && decide ((r.summary.getD "").length < 20))
    let emptyPart :=
      if emptySummaries > 0 then
        let learning := "Found " ++ toString emptySummaries ++ " empty summaries in last " ++
          toString recentSummarized.length ++
          " interactions. Claude may be returning empty responses for very short inputs."
        ([learning],
         [{ error_type := "quality_issue"
            service := "claudeService"
            operation := "summarize_interaction"
            error_message := learning
            pattern_id := some "empty_summary"
            context := [("sample_size", CtxVal.nat recentSummarized.length),
                        ("empty_count", CtxVal.nat emptySummaries)] }])
      else (([] : List String), ([] : List LogEntry))
    let shortPart :=
      if shortSummaries ≥ 3 then
        let learning := "Found " ++ toString shortSummaries ++ "/" ++
          toString recentSummarized.length ++
          " very short summaries (<20 chars). May indicate input content too brief for meaningful summarization."
        ([learning],
         [{ error_type := "quality_issue"
            service := "claudeService"
            operation := "summarize_interaction"
            error_message := learning
            pattern_id := some "short_summary"
            context := [("sample_size", CtxVal.nat recentSummarized.length),
                        ("short_count", CtxVal.nat shortSummaries)] }])
      else (([] : List String), ([] : List LogEntry))
    (emptyPart.1 ++ shortPart.1, emptyPart.2 ++ shortPart.2)

/-- One row of the `handoff_events` table as read by `checkOrphanedHandoffs`. -/
structure HandoffRow where
  id : String
  from_agent : Option String
  to_agent : Option String
  urgency : String
  status : String
  created_at : Int
deriving Repr, DecidableEq

/-- Phase 4 of the self-annealing cycle, `checkOrphanedHandoffs`: take the
pending handoffs whose `created_at` is at most four hours ago, split them
into the escalation tier (urgency high/critical) and the normal tier, log an
aggregated record for the escalation tier when non-empty and one for the
normal items older than 24 hours when non-empty. -/
def checkOrphanedHandoffs (handoffs : List HandoffRow) (now : Int) :
    List String × List LogEntry :=
  let fourHoursAgo := now - 4 * msPerHour
  let twentyFourHoursAgo := now - 24 * msPerHour
  let overdueHandoffs := handoffs.filter
    (fun h => h.status == "pending" && decide (h.created_at ≤ fourHoursAgo))
  if overdueHandoffs.isEmpty then ([], [])
  else
    let escalations := overdueHandoffs.filter
      (fun h => h.urgency == "high" || h.urgency == "critical")
    let normal := overdueHandoffs.filter
      (fun h => h.urgency != "high" && h.urgency != "critical")
    let escPart :=
      if escalations.length > 0 then
        let learning := toString escalations.length ++
          " high/critical priority handoff(s) pending > 4 hours. Immediate attention required."
        ([learning],
         [{ error_type := "quality_issue"
            service := "handoffService"
            operation := "orphaned_handoff_check"
            error_message := learning
            pattern_id := some "overdue_escalation_handoff"
            context := [("handoff_ids", CtxVal.strList (escalations.map (fun h => h.id)))] }])
      else (([] : List String), ([] : List LogEntry))
    let reallyOld := normal.filter (fun h => decide (h.created_at < twentyFourHoursAgo))
    let stuckPart :=
      if reallyOld.length > 0 then
        let learning := toString reallyOld.length ++
          " normal-priority handoff(s) pending > 24 hours. May be stuck."
        ([learning],
         [{ error_type := "quality_issue"
            service := "handoffService"
            operation := "orphaned_handoff_check"
            error_message := learning
            pattern_id := some "stuck_handoff"
            context := [("handoff_ids", CtxVal.strList (reallyOld.map (fun h => h.id)))] }])
      else (([] : List String), ([] : List LogEntry))
    (escPart.1 ++ stuckPart.1, escPart.2 ++ stuckPart.2)

/-- The outcomes of the four fallible phases of one `selfAnneal` cycle.
In the pure embedding the phase bodies themselves cannot throw, so to model
the control flow of the surrounding `try/catch` each phase's behaviour is
injected as an `Except`: `.ok ls` means the phase completed and produced the
learnings `ls`, `.error e` means it threw an exception with message `e`.
Phase 5 (`appendToDirective`) swallows its own failures internally and so
cannot throw. -/
structure PhaseOutcomes where
  p1 : Except String (List String)
  p2 : Except String (List String)
  p3 : Except String (List String)
  p4 : Except String (List String)
deriving Repr

/-- The observable trace of one `selfAnneal` cycle: which phases started
(in order), the learnings accumulated, the entry logged by the top-level
`catch` (if any), and whether the directive document was appended to. -/
structure AnnealTrace where
  phasesRun : List Nat
  learnings : List String
  cycleError : Option LogEntry
  directiveAppended : Bool
deriving Repr, DecidableEq

/-- The entry the top-level `catch` of `selfAnneal` logs:
`error_type: 'api_error'` (the operational class), service `selfAnnealJob`,
operation `self_anneal_cycle`. -/
def cycleErrorEntry (msg : String) : LogEntry :=
  { error_type := "api_error"
    service := "selfAnnealJob"
    operation := "self_anneal_cycle"
    error_message := msg
    pattern_id := none
    context := [] }

/-- `selfAnneal`: runs phases 1-4 strictly in sequence inside a single
`try` block, appending the learnings to the directive at the end when any
were produced; the single top-level `catch` logs the escaping exception as
an operational error. There is no per-phase catch, so the first phase that
throws ends the cycle. -/
def selfAnneal (env : PhaseOutcomes) : AnnealTrace :=
  match env.p1 with
  | .error e => ⟨[1], [], some (cycleErrorEntry e), false⟩
  | .ok l1 =>
    match env.p2 with
    | .error e => ⟨[1, 2], [], some (cycleErrorEntry e), false⟩
    | .ok l2 =>
      match env.p3 with
      | .error e => ⟨[1, 2, 3], [], some (cycleErrorEntry e), false⟩
      | .ok l3 =>
        match env.p4 with
        | .error e => ⟨[1, 2, 3, 4], [], some (cycleErrorEntry e), false⟩
        | .ok l4 =>
          let ls := l1 ++ l2 ++ l3 ++ l4
          ⟨[1, 2, 3, 4], ls, none, !ls.isEmpty⟩

/-! ## Context cache manager (`src/services/contextService.ts`)

The service's I/O collaborators are modelled by a `CtxEnv` snapshot: the
contact row, the cached `contact_context` row, the live interaction count,
the recent-interactions query result (newest-first), the latest handoff row,
and the outcome of the summarizer call (`claudeService.generateWorkingContext`
including its JSON parsing — a thrown error is `.error msg`). Presentation-only
columns of `contact_context` (`open_threads`, the score/signal fields) are not
read or written by any modelled operation's logic and are elided; `cost_usd`
(floating point) is likewise elided from the usage ledger entry. -/

/-- The `contacts` row fields read by `getContext`. -/
structure Contact where
  id : String
  name : Option String
  company_name : Option String
  email : String
  stage : String
  last_touch_at : Option Int
  owner_agent : Option String
deriving Repr, DecidableEq

/-- The cached `contact_context` row (fields the service reads or writes). -/
structure ContactContext where
  summary : String
  key_facts : List String
  current_status : String
  recommended_tone : String
  interaction_count_at_generation : Option Nat
  generated_at : Int
  token_count : Nat
deriving Repr, DecidableEq

/-- The parsed structured result expected from the summarizer
(`ClaudeContextResult`). -/
structure ClaudeContextResult where
  summary : String
  key_facts : List String
  current_status : String
  recommended_tone : String
deriving Repr, DecidableEq

/-- Token usage reported by the summarizer call. -/
structure ClaudeUsage where
  model : String
  input_tokens : Nat
  output_tokens : Nat
deriving Repr, DecidableEq

/-- One `token_usage` ledger entry written via `usageService.logUsage`. -/
structure UsageEntry where
  agent : String
  model : String
  operation : String
  input_tokens : Nat
  output_tokens : Nat
  contact_id : Option String
deriving Repr, DecidableEq

/-- One projected recent interaction attached at level ≥ 2. -/
structure RecentInteraction where
  id : String
  agent : String
  type : String
  summary : Option String
  sentiment : Option String
  date : Int
deriving Repr, DecidableEq

/-- The projected latest handoff attached to a level ≥ 1 response. -/
structure HandoffInfo where
  from_agent : String
  to_agent : Option String
  reason : String
  date : Int
deriving Repr, DecidableEq

/-- Environment snapshot for one `getContext`/`refreshContext` call. -/
structure CtxEnv where
  contact : Option Contact
  cachedContext : Option ContactContext
  interactionCount : Nat
  recentInteractions : List RecentInteraction
  lastHandoff : Option HandoffInfo
  claude : Except String (ClaudeContextResult × ClaudeUsage)
  now : Int

/-- The `header` block of every context response. -/
structure ContextHeader where
  name : Option String
  company : Option String
  email : String
  stage : String
  last_touch : Option Int
  last_touch_agent : Option String
deriving Repr, DecidableEq

/-- The `context` block of a level ≥ 1 response. -/
structure ContextBody where
  summary : String
  key_facts : List String
  current_status : String
  recommended_tone : String
deriving Repr, DecidableEq

/-- A `ContextResponse` (level 0 responses carry `none` for the optional
blocks, matching the early return that omits them). -/
structure ContextResponse where
  contact_id : String
  level : Nat
  token_count : Nat
  header : ContextHeader
  context : Option ContextBody
  generated_at : Option Int
  is_stale : Bool
  recent_interactions : Option (List RecentInteraction)
  last_handoff : Option HandoffInfo
deriving Repr, DecidableEq

/-- `STALENESS_HOURS = 24`. -/
def STALENESS_HOURS : Int := 24

/-- `isContextStale(ctx, currentInteractionCount)`: stale when the stored
interaction count is non-null and differs from the live count, or when the
record's age exceeds the 24-hour threshold (the source computes
`ageMs / 3_600_000 > 24`, equivalent to `ageMs > 24 * 3_600_000`). -/
def isContextStale (ctx : ContactContext) (currentInteractionCount : Nat)
    (now : Int) : Bool :=
  if (match ctx.interaction_count_at_generation with
      | some n => decide (n ≠ currentInteractionCount)
      | none => false) then
    true
  else
    decide (now - ctx.generated_at > STALENESS_HOURS * msPerHour)

/-- The outcome of one `regenerateContext` run: the thrown error or the new
record, plus the journal and ledger entries written along the way. -/
structure RegenOutcome where
  result : Except String ContactContext
  errorLog : List LogEntry
  usageLog : List UsageEntry

/-- `regenerateContext`: call the summarizer; on failure log a classified
journal entry (rate-limit heuristic on the message) and rethrow; on success
build the new record from the parsed result, the snapshot's interaction
count and the current time, and write one usage-ledger entry. -/
def regenerateContext (env : CtxEnv) (contactId : String)
    (interactionCount : Nat) : RegenOutcome :=
  match env.claude with
  | .error msg =>
      { result := .error msg
        errorLog := [{ error_type := "claude_error"
                       service := "contextService"
                       operation := "generate_context"
                       error_message := msg
                       pattern_id :=
                         if strContains msg "rate_limit" then some "claude_rate_limit"
                         else none
                       context := [("contact_id", CtxVal.str contactId)] }]
        usageLog := [] }
  | .ok (result, usage) =>
      let tokenCount := usage.input_tokens + usage.output_tokens
      let newCtx : ContactContext :=
        { summary := result.summary
          key_facts := result.key_facts
          current_status := result.current_status
          recommended_tone := result.recommended_tone
          interaction_count_at_generation := some interactionCount
          generated_at := env.now
          token_count := tokenCount }
      { result := .ok newCtx
        errorLog := []
        usageLog := [{ agent := "cortex"
                       model := usage.model
                       operation := "generate_context"
                       input_tokens := usage.input_tokens
                       output_tokens := usage.output_tokens
                       contact_id := some contactId }] }

/-- The response built for a level ≥ 1 call from the cached or freshly
regenerated record (`is_stale` is written as the literal `false`). -/
def buildResponse (contactId : String) (level : Nat) (header : ContextHeader)
    (ctx : Option ContactContext) (env : CtxEnv) : ContextResponse :=
  { contact_id := contactId
    level := level
    token_count := (ctx.map (fun c => c.token_count)).getD 0
    header := header
    context := ctx.map (fun c =>
      { summary := c.summary
        key_facts := c.key_facts
        current_status := c.current_status
        recommended_tone := c.recommended_tone })
    generated_at := ctx.map (fun c => c.generated_at)
    is_stale := false
    recent_interactions :=
      if level ≥ 2 then
        some (env.recentInteractions.take (if level = 2 then 10 else 50))
      else none
    last_handoff := env.lastHandoff }

/-- The staleness decision of `getContext` for level ≥ 1
(`const isStale = !ctx || forceRefresh || isContextStale(ctx, currentInteractionCount)`). -/
def staleCheck (cached : Option ContactContext) (forceRefresh : Bool)
    (cur : Nat) (now : Int) : Bool :=
  match cached with
  | none => true
  | some ctx => forceRefresh || isContextStale ctx cur now

/-- The full outcome of one `getContext` call: the response or thrown error,
the `contact_context` row afterwards, whether the regeneration pipeline ran,
and the journal/ledger entries written. -/
structure GetContextOutcome where
  result : Except String ContextResponse
  newCache : Option ContactContext
  regenerated : Bool
  errorLog : List LogEntry
  usageLog : List UsageEntry

/-- `getContext(contactId, level, forceRefresh)`. Level 0 returns the
header-only projection immediately; level ≥ 1 computes staleness as
`!ctx || forceRefresh || isContextStale(ctx, currentCount)` and runs the
regeneration pipeline synchronously when stale, propagating its failure. -/
def getContext (env : CtxEnv) (contactId : String) (level : Nat)
    (forceRefresh : Bool) : GetContextOutcome :=
  match env.contact with
  | none =>
      { result := .error "Contact not found"
        newCache := env.cachedContext
        regenerated := false
        errorLog := []
        usageLog := [] }
  | some c =>
      let header : ContextHeader :=
        { name := c.name
          company := c.company_name
          email := c.email
          stage := c.stage
          last_touch := c.last_touch_at
          last_touch_agent := c.owner_agent }
      if level = 0 then
        { result := .ok
            { contact_id := contactId
              level := 0
              token_count := 50
              header := header
              context := none
              generated_at := none
              is_stale := false
              recent_interactions := none
              last_handoff := none }
          newCache := env.cachedContext
          regenerated := false
          errorLog := []
          usageLog := [] }
      else
        let ctx0 := env.cachedContext
        let cur := env.interactionCount
        if staleCheck ctx0 forceRefresh cur env.now then
          let regen := regenerateContext env contactId cur
          match regen.result with
          | .error msg =>
              { result := .error msg
                newCache := env.cachedContext
                regenerated := true
                errorLog := regen.errorLog
                usageLog := regen.usageLog }
          | .ok newCtx =>
              { result := .ok (buildResponse contactId level header (some newCtx) env)
                newCache := some newCtx
                regenerated := true
                errorLog := regen.errorLog
                usageLog := regen.usageLog }
        else
          { result := .ok (buildResponse contactId level header ctx0 env)
            newCache := env.cachedContext
            regenerated := false
            errorLog := []
            usageLog := [] }

/-- The value returned by `refreshContext`. -/
structure RefreshResult where
  contact_id : String
  regenerated : Bool
  previous_generated_at : Option Int
  new_generated_at : Int
  token_count : Nat
deriving Repr, DecidableEq

/-- `refreshContext(contactId)`: reads the previous `generated_at`, then
calls `getContext(contactId, 1, true)`; a thrown regeneration error
propagates. Returns both the refresh summary and the underlying
`getContext` outcome (for the side effects). -/
def refreshContext (env : CtxEnv) (contactId : String) :
    Except String RefreshResult × GetContextOutcome :=
  let previous := env.cachedContext.map (fun c => c.generated_at)
  let out := getContext env contactId 1 true
  match out.result with
  | .error e => (.error e, out)
  | .ok resp =>
      (.ok { contact_id := contactId
             regenerated := true
             previous_generated_at := previous
             new_generated_at := resp.generated_at.getD env.now
             token_count := resp.token_count }, out)

/-! ## Specification-side predicates and concrete witness environments -/

/-- The staleness condition exactly as the specification words it: no cached
record exists, or `forceRefresh` is set, or the interaction count stored at
generation time differs from the current live count, or the record's age
exceeds 24 hours. -/
def specStale (cached : Option ContactContext) (forceRefresh : Bool)
    (cur : Nat) (now : Int) : Prop :=
  cached = none ∨ forceRefresh = true ∨
  (∃ ctx n, cached = some ctx ∧ ctx.interaction_count_at_generation = some n ∧ n ≠ cur) ∨
  (∃ ctx, cached = some ctx ∧ now - ctx.generated_at > 24 * msPerHour)

theorem staleCheck_eq_true_iff (cached : Option ContactContext) (fr : Bool)
    (cur : Nat) (now : Int) :
    staleCheck cached fr cur now = true ↔ specStale cached fr cur now := by
  cases cached with
  | none => simp [staleCheck, specStale]
  | some ctx =>
    cases hi : ctx.interaction_count_at_generation with
    | none => simp [staleCheck, specStale, isContextStale, hi, STALENESS_HOURS]
    | some n =>
      by_cases hn : n = cur <;>
        simp [staleCheck, specStale, isContextStale, hi, hn, STALENESS_HOURS]

theorem staleCheck_force (cached : Option ContactContext) (cur : Nat) (now : Int) :
    staleCheck cached true cur now = true := by
  cases cached <;> simp [staleCheck]

def sampleContact : Contact :=
  { id := "c1", name := some "Ada", company_name := some "Acme"
    email := "ada@acme.test", stage := "active"
    last_touch_at := some 1000, owner_agent := some "atlas" }

def sampleCtxRecord : ContactContext :=
  { summary := "existing summary", key_facts := ["fact"]
    current_status := "ok", recommended_tone := "warm"
    interaction_count_at_generation := some 2
    generated_at := 500, token_count := 42 }

def sampleClaudeOk : ClaudeContextResult :=
  { summary := "fresh summary", key_facts := ["new fact"]
    current_status := "active", recommended_tone := "direct" }

def sampleUsage : ClaudeUsage :=
  { model := "claude-3-5-haiku-20241022", input_tokens := 100, output_tokens := 50 }

/-- A fresh cache: stored count equals the live count and the record is
young, so a level ≥ 1 read serves the cached record. -/
def envFresh : CtxEnv :=
  { contact := some sampleContact
    cachedContext := some sampleCtxRecord
    interactionCount := 2
    recentInteractions := []
    lastHandoff := none
    claude := .ok (sampleClaudeOk, sampleUsage)
    now := 1000 }

/-- Same cache state but the live interaction count has drifted (3 ≠ 2)
while the record's age is still tiny. -/
def envDrift : CtxEnv := { envFresh with interactionCount := 3 }

/-- Count drift plus a summarizer failure carrying a rate-limit marker. -/
def envClaudeFail : CtxEnv :=
  { envFresh with
    interactionCount := 3
    claude := .error "anthropic rate_limit exceeded" }

/-! ## Claim theorems: context cache manager -/

/-- **C1**: for level ≥ 1 on an existing contact, the regeneration pipeline
runs if and only if the claim's staleness condition holds (no record, or
forceRefresh, or stored interaction count differs from the live count, or
age over 24 hours); and when it runs, a successful response is built from
the freshly regenerated record (its `generated_at` is the call time), i.e.
regeneration happens synchronously before the response is built. -/
theorem getContext_regenerates_iff_stale (env : CtxEnv) (contactId : String)
    (level : Nat) (forceRefresh : Bool) (c : Contact)
    (hc : env.contact = some c) (hl : 1 ≤ level) :
    ((getContext env contactId level forceRefresh).regenerated = true ↔
      specStale env.cachedContext forceRefresh env.interactionCount env.now) ∧
    (∀ resp : ContextResponse,
      specStale env.cachedContext forceRefresh env.interactionCount env.now →
      (getContext env contactId level forceRefresh).result = Except.ok resp →
      resp.generated_at = some env.now) := by
  have hl0 : ¬ level = 0 := by omega
  constructor
  · rw [← staleCheck_eq_true_iff]
    unfold getContext
    rw [hc]
    simp only [hl0, if_false]
    cases hb : staleCheck env.cachedContext forceRefresh env.interactionCount env.now with
    | false => simp [hb]
    | true =>
        simp only [hb, if_true]
        cases hr : (regenerateContext env contactId env.interactionCount).result <;>
          simp [hr]
  · intro resp hspec hok
    rw [← staleCheck_eq_true_iff] at hspec
    unfold getContext at hok
    rw [hc] at hok
    simp only [hl0, if_false, hspec, if_true] at hok
    unfold regenerateContext at hok
    cases hcl : env.claude with
    | error e => rw [hcl] at hok; simp at hok
    | ok pr =>
        rw [hcl] at hok
        simp only [buildResponse] at hok
        injection hok with hok
        rw [← hok]
        simp

/-- **C1 witness**: with a cached record whose stored count is 2, live count
3 and age 500 ms (far under 24 h), a level-1 read regenerates. -/
theorem getContext_regenerates_iff_stale_witness :
    (getContext envDrift "c1" 1 false).regenerated = true :=
  (getContext_regenerates_iff_stale envDrift "c1" 1 false sampleContact rfl
      (by decide)).1.mpr
    (Or.inr (Or.inr (Or.inl ⟨sampleCtxRecord, 2, rfl, rfl, by decide⟩)))

/-- **C8**: a level-0 call on an existing contact returns the fixed
header-only projection, leaves the cache untouched, writes nothing to the
journal or ledger, never regenerates, and its result does not depend on the
cache state, the live interaction count, or the summarizer (any two
environments with the same contact row give the same result). -/
theorem getContext_level0_header_only (env env' : CtxEnv) (contactId : String)
    (fr fr' : Bool) (c : Contact)
    (hc : env.contact = some c) (hc' : env'.contact = some c) :
    (getContext env contactId 0 fr).regenerated = false ∧
    (getContext env contactId 0 fr).newCache = env.cachedContext ∧
    (getContext env contactId 0 fr).errorLog = [] ∧
    (getContext env contactId 0 fr).usageLog = [] ∧
    (getContext env contactId 0 fr).result = Except.ok
      { contact_id := contactId, level := 0, token_count := 50
        header := { name := c.name, company := c.company_name, email := c.email
                    stage := c.stage, last_touch := c.last_touch_at
                    last_touch_agent := c.owner_agent }
        context := none, generated_at := none, is_stale := false
        recent_interactions := none, last_handoff := none } ∧
    (getContext env contactId 0 fr).result = (getContext env' contactId 0 fr').result := by
  unfold getContext
  rw [hc, hc']
  simp

/-- **C8 witness**: the same level-0 response is produced whether the cache
is fresh or the summarizer is failing with count drift. -/
theorem getContext_level0_header_only_witness :
    (getContext envFresh "c1" 0 false).regenerated = false ∧
    (getContext envFresh "c1" 0 false).newCache = envFresh.cachedContext ∧
    (getContext envFresh "c1" 0 false).errorLog = [] ∧
    (getContext envFresh "c1" 0 false).usageLog = [] ∧
    (getContext envFresh "c1" 0 false).result = Except.ok
      { contact_id := "c1", level := 0, token_count := 50
        header := { name := sampleContact.name, company := sampleContact.company_name
                    email := sampleContact.email, stage := sampleContact.stage
                    last_touch := sampleContact.last_touch_at
                    last_touch_agent := sampleContact.owner_agent }
        context := none, generated_at := none, is_stale := false
        recent_interactions := none, last_handoff := none } ∧
    (getContext envFresh "c1" 0 false).result = (getContext envClaudeFail "c1" 0 true).result :=
  getContext_level0_header_only envFresh envClaudeFail "c1" false true sampleContact rfl rfl

/-- **C10**: every successful `getContext` response — any level, any cache
state — carries `is_stale = false`; the flag is hard-coded in both the
level-0 early return and the level ≥ 1 response builder. -/
theorem getContext_is_stale_always_false (env : CtxEnv) (contactId : String)
    (level : Nat) (fr : Bool) (resp : ContextResponse)
    (h : (getContext env contactId level fr).result = Except.ok resp) :
    resp.is_stale = false := by
  unfold getContext at h
  cases hc : env.contact with
  | none => rw [hc] at h; simp at h
  | some c =>
    rw [hc] at h
    by_cases hl : level = 0
    · simp only [hl, if_true] at h
      injection h with h
      rw [← h]
    · simp only [hl, if_false] at h
      cases hb : staleCheck env.cachedContext fr env.interactionCount env.now with
      | false =>
          simp only [hb, if_false] at h
          injection h with h
          rw [← h]
          rfl
      | true =>
          simp only [hb, if_true] at h
          cases hr : (regenerateContext env contactId env.interactionCount).result with
          | error e => rw [hr] at h; simp at h
          | ok newCtx =>
              rw [hr] at h
              injection h with h
              rw [← h]
              rfl

/-- The response `getContext envFresh "c1" 1 false` evaluates to. -/
def respFresh : ContextResponse :=
  buildResponse "c1" 1
    { name := sampleContact.name, company := sampleContact.company_name
      email := sampleContact.email, stage := sampleContact.stage
      last_touch := sampleContact.last_touch_at
      last_touch_agent := sampleContact.owner_agent }
    (some sampleCtxRecord) envFresh

/-- **C10 witness**: the concrete fresh-cache level-1 response has
`is_stale = false`. -/
theorem getContext_is_stale_always_false_witness : respFresh.is_stale = false :=
  getContext_is_stale_always_false envFresh "c1" 1 false respFresh rfl

/-- **C6**: when the summarizer call (or parsing its result) fails during a
regeneration triggered by a stale level ≥ 1 read, the read fails with that
same error, exactly one journal entry is written (classified `claude_error`,
with the rate-limit heuristic on the message), no ledger entry is written,
the previously cached record is left fully intact, and no stale fallback is
returned; `refreshContext` propagates the same failure. -/
theorem regeneration_failure_propagates (env : CtxEnv) (contactId : String)
    (level : Nat) (fr : Bool) (c : Contact) (e : String)
    (hc : env.contact = some c) (hl : 1 ≤ level)
    (hcl : env.claude = Except.error e)
    (hstale : staleCheck env.cachedContext fr env.interactionCount env.now = true) :
    (getContext env contactId level fr).result = Except.error e ∧
    (getContext env contactId level fr).newCache = env.cachedContext ∧
    (getContext env contactId level fr).usageLog = [] ∧
    (getContext env contactId level fr).errorLog =
      [{ error_type := "claude_error", service := "contextService"
         operation := "generate_context", error_message := e
         pattern_id :=
           if strContains e "rate_limit" then some "claude_rate_limit" else none
         context := [("contact_id", CtxVal.str contactId)] }] ∧
    (refreshContext env contactId).1 = Except.error e := by
  have hl0 : ¬ level = 0 := by omega
  have hmain : ∀ lv : Nat, ¬ lv = 0 → ∀ b : Bool,
      staleCheck env.cachedContext b env.interactionCount env.now = true →
      (getContext env contactId lv b).result = Except.error e ∧
      (getContext env contactId lv b).newCache = env.cachedContext ∧
      (getContext env contactId lv b).usageLog = [] ∧
      (getContext env contactId lv b).errorLog =
        [{ error_type := "claude_error", service := "contextService"
           operation := "generate_context", error_message := e
           pattern_id :=
             if strContains e "rate_limit" then some "claude_rate_limit" else none
           context := [("contact_id", CtxVal.str contactId)] }] := by
    intro lv hlv b hb
    unfold getContext
    rw [hc]
    simp only [hlv, if_false, hb, if_true]
    unfold regenerateContext
    rw [hcl]
    simp
  refine ⟨(hmain level hl0 fr hstale).1, (hmain level hl0 fr hstale).2.1,
    (hmain level hl0 fr hstale).2.2.1, (hmain level hl0 fr hstale).2.2.2, ?_⟩
  have h1 := (hmain 1 (by omega) true
    (staleCheck_force env.cachedContext env.interactionCount env.now)).1
  unfold refreshContext
  simp [h1]

/-- **C6 witness**: with count drift and a failing summarizer whose message
contains `rate_limit`, the level-1 read fails, the cache is untouched, and
one `claude_error` entry tagged `claude_rate_limit` is journaled. -/
theorem regeneration_failure_propagates_witness :
    (getContext envClaudeFail "c1" 1 false).result =
      Except.error "anthropic rate_limit exceeded" ∧
    (getContext envClaudeFail "c1" 1 false).newCache = envClaudeFail.cachedContext ∧
    (getContext envClaudeFail "c1" 1 false).usageLog = [] ∧
    (getContext envClaudeFail "c1" 1 false).errorLog =
      [{ error_type := "claude_error", service := "contextService"
         operation := "generate_context"
         error_message := "anthropic rate_limit exceeded"
         pattern_id :=
           if strContains "anthropic rate_limit exceeded" "rate_limit" then
             some "claude_rate_limit"
           else none
         context := [("contact_id", CtxVal.str "c1")] }] ∧
    (refreshContext envClaudeFail "c1").1 =
      Except.error "anthropic rate_limit exceeded" :=
  regeneration_failure_propagates envClaudeFail "c1" 1 false sampleContact
    "anthropic rate_limit exceeded" rfl (by decide) rfl (by decide)

/-! ## Claim theorems: self-annealing cycle structure (C2) -/

/-- **C2 counterexample**: with phase 1 succeeding and phase 2 throwing,
phases 3 and 4 of the same cycle never run and the knowledge sink is not
written — refuting the claim that a failure in one phase is caught so that
later phases still run. -/
theorem selfAnneal_phase_failure_aborts_cycle :
    (selfAnneal { p1 := Except.ok ["learning-a"], p2 := Except.error "db down"
                  p3 := Except.ok ["learning-c"], p4 := Except.ok [] }).phasesRun = [1, 2] ∧
    3 ∉ (selfAnneal { p1 := Except.ok ["learning-a"], p2 := Except.error "db down"
                      p3 := Except.ok ["learning-c"], p4 := Except.ok [] }).phasesRun ∧
    (selfAnneal { p1 := Except.ok ["learning-a"], p2 := Except.error "db down"
                  p3 := Except.ok ["learning-c"], p4 := Except.ok [] }).learnings = [] ∧
    (selfAnneal { p1 := Except.ok ["learning-a"], p2 := Except.error "db down"
                  p3 := Except.ok ["learning-c"], p4 := Except.ok [] }).directiveAppended = false := by
  refine ⟨rfl, ?_, rfl, rfl⟩
  decide

/-- **C2 (amended)**: within one cycle the phases run strictly in sequence,
but there is no per-phase isolation: the first phase that throws ends the
cycle — its exception is caught only by the single top-level handler, which
logs it to the Error Journal as an operational (`api_error`) entry, and the
remaining phases (including the knowledge-sink append) do not run. When no
phase throws, all phases run in order and the accumulated learnings are
appended when non-empty. -/
theorem selfAnneal_sequence_top_level_catch (env : PhaseOutcomes) :
    ((selfAnneal env).phasesRun = [1, 2, 3, 4].take (selfAnneal env).phasesRun.length) ∧
    (∀ e, env.p1 = Except.error e →
      selfAnneal env = ⟨[1], [], some (cycleErrorEntry e), false⟩) ∧
    (∀ l1 e, env.p1 = Except.ok l1 → env.p2 = Except.error e →
      selfAnneal env = ⟨[1, 2], [], some (cycleErrorEntry e), false⟩) ∧
    (∀ l1 l2 e, env.p1 = Except.ok l1 → env.p2 = Except.ok l2 →
      env.p3 = Except.error e →
      selfAnneal env = ⟨[1, 2, 3], [], some (cycleErrorEntry e), false⟩) ∧
    (∀ l1 l2 l3 e, env.p1 = Except.ok l1 → env.p2 = Except.ok l2 →
      env.p3 = Except.ok l3 → env.p4 = Except.error e →
      selfAnneal env = ⟨[1, 2, 3, 4], [], some (cycleErrorEntry e), false⟩) ∧
    (∀ l1 l2 l3 l4, env.p1 = Except.ok l1 → env.p2 = Except.ok l2 →
      env.p3 = Except.ok l3 → env.p4 = Except.ok l4 →
      selfAnneal env =
        ⟨[1, 2, 3, 4], l1 ++ l2 ++ l3 ++ l4, none,
         !(l1 ++ l2 ++ l3 ++ l4).isEmpty⟩) := by
  cases h1 : env.p1 <;> cases h2 : env.p2 <;> cases h3 : env.p3 <;> cases h4 : env.p4 <;>
    refine ⟨?_, ?_, ?_, ?_, ?_, ?_⟩ <;>
      simp [selfAnneal, h1, h2, h3, h4] <;>
        (intros; subst_vars; simp)

/-- **C2 witness**: a fully successful cycle runs all four phases in order
and appends its single learning. -/
theorem selfAnneal_sequence_top_level_catch_witness :
    selfAnneal { p1 := Except.ok ["a"], p2 := Except.ok []
                 p3 := Except.ok [], p4 := Except.ok [] } =
      ⟨[1, 2, 3, 4], ["a"] ++ [] ++ [] ++ [], none,
       !((["a"] ++ [] ++ [] ++ [] : List String).isEmpty)⟩ :=
  (selfAnneal_sequence_top_level_catch
      { p1 := Except.ok ["a"], p2 := Except.ok []
        p3 := Except.ok [], p4 := Except.ok [] }).2.2.2.2.2
    ["a"] [] [] [] rfl rfl rfl rfl

/-! ## Claim theorems: auto-remediation decision table (C4) -/

/-- A recurring budget-exceeded pattern with count 3. -/
def budgetPattern3 : ErrorPattern :=
  { error_type := "budget_exceeded", service := "usageService", operation := "op"
    pattern_id := some "pb", count := 3
    latest_message := "budget exceeded for atlas"
    first_seen := 0, last_seen := 10 }

/-- The same pattern below the recurring threshold (count 2). -/
def budgetPattern2 : ErrorPattern := { budgetPattern3 with count := 2 }

/-- **C4**: `tryAutoFix` applies the fixed decision table in order with first
match winning — (1) `claude_error` with a rate-limit marker, (2)
`budget_exceeded`, (3) `quality_issue` with count ≥ 5, each producing one
learning and one `resolveErrors` call with `auto_fixed := true`; (4) any
remaining pattern with count ≥ 5 is flagged (learning, no resolve call);
anything else produces nothing. Concretely, one budget-exceeded pattern of
count 3 (with a below-threshold companion) yields exactly one learning,
which mentions `budget`, and one auto-fixed resolve call. -/
theorem tryAutoFix_decision_table (p : ErrorPattern) :
    (p.error_type = "claude_error" → strContains p.latest_message "rate_limit" = true →
      tryAutoFix p =
        (some ("Claude rate limit hit " ++ toString p.count ++ "x in " ++ p.service ++
          "." ++ p.operation ++
          ". Consider reducing batch sizes or adding longer delays between batches."),
         [{ pattern_id := p.pattern_id
            resolution := "Detected by self-anneal: rate limit pattern. Logged recommendation to reduce batch sizes."
            auto_fixed := true }])) ∧
    (p.error_type = "budget_exceeded" →
      tryAutoFix p =
        (some ("Budget exceeded " ++ toString p.count ++ "x for " ++ p.operation ++
          ". Consider increasing daily_token_budget for affected agent(s) in agent_config."),
         [{ pattern_id := p.pattern_id
            resolution := "Detected by self-anneal: recurring budget exceeded. Logged recommendation."
            auto_fixed := true }])) ∧
    (p.error_type = "quality_issue" → 5 ≤ p.count →
      tryAutoFix p =
        (some ("Quality issue (" ++ p.operation ++ ") recurring " ++ toString p.count ++
          "x. Consider fallback to Claude Sonnet for this operation type."),
         [{ pattern_id := p.pattern_id
            resolution := "Detected by self-anneal: persistent quality issue. Recommend Sonnet fallback."
            auto_fixed := true }])) ∧
    (¬(p.error_type = "claude_error" ∧ strContains p.latest_message "rate_limit" = true) →
      ¬ p.error_type = "budget_exceeded" →
      ¬(p.error_type = "quality_issue" ∧ 5 ≤ p.count) →
      5 ≤ p.count →
      tryAutoFix p =
        (some ("Recurring " ++ p.error_type ++ " in " ++ p.service ++ "." ++ p.operation ++
          " (" ++ toString p.count ++ "x): \"" ++ (p.latest_message.take 100) ++ "\""),
         [])) ∧
    (¬(p.error_type = "claude_error" ∧ strContains p.latest_message "rate_limit" = true) →
      ¬ p.error_type = "budget_exceeded" →
      ¬(p.error_type = "quality_issue" ∧ 5 ≤ p.count) →
      p.count < 5 →
      tryAutoFix p = (none, [])) ∧
    (handleErrorPatterns [budgetPattern3, budgetPattern2] =
      (["Budget exceeded 3x for op. Consider increasing daily_token_budget for affected agent(s) in agent_config."],
       [{ pattern_id := some "pb"
          resolution := "Detected by self-anneal: recurring budget exceeded. Logged recommendation."
          auto_fixed := true }]) ∧
     strContains
       "Budget exceeded 3x for op. Consider increasing daily_token_budget for affected agent(s) in agent_config."
       "budget" = true) := by
  refine ⟨?_, ?_, ?_, ?_, ?_, by decide⟩
  · intro h1 h2
    simp [tryAutoFix, h1, h2]
  · intro h
    have hne : p.error_type ≠ "claude_error" := by rw [h]; decide
    simp [tryAutoFix, h, hne]
  · intro h h5
    have hne1 : p.error_type ≠ "claude_error" := by rw [h]; decide
    have hne2 : p.error_type ≠ "budget_exceeded" := by rw [h]; decide
    simp [tryAutoFix, h, hne1, hne2, h5]
  · intro h1 h2 h3 h5
    by_cases hce : p.error_type = "claude_error"
    · have hrl : strContains p.latest_message "rate_limit" = false := by
        cases hb : strContains p.latest_message "rate_limit" with
        | false => rfl
        | true => exact absurd ⟨hce, hb⟩ h1
      by_cases hq : p.error_type = "quality_issue"
      · rw [hce] at hq; exact absurd hq (by decide)
      · simp [tryAutoFix, hce, hrl, h2, hq, h5]
    · by_cases hq : p.error_type = "quality_issue"
      · have : ¬ 5 ≤ p.count := fun hc => h3 ⟨hq, hc⟩
        omega
      · simp [tryAutoFix, hce, h2, hq, h5]
  · intro h1 h2 h3 h5
    have h5' : ¬ 5 ≤ p.count := by omega
    by_cases hce : p.error_type = "claude_error"
    · have hrl : strContains p.latest_message "rate_limit" = false := by
        cases hb : strContains p.latest_message "rate_limit" with
        | false => rfl
        | true => exact absurd ⟨hce, hb⟩ h1
      by_cases hq : p.error_type = "quality_issue"
      · rw [hce] at hq; exact absurd hq (by decide)
      · simp [tryAutoFix, hce, hrl, h2, hq, h5']
    · by_cases hq : p.error_type = "quality_issue"
      · simp [tryAutoFix, hce, h2, hq, h5']
      · simp [tryAutoFix, hce, h2, hq, h5']

/-- **C4 witness**: the rate-limit row fires on a concrete recurring
`claude_error` pattern whose latest message carries the marker. -/
theorem tryAutoFix_decision_table_witness :
    tryAutoFix
      { error_type := "claude_error", service := "contextService"
        operation := "generate_context", pattern_id := some "claude_rate_limit"
        count := 4, latest_message := "hit rate_limit again"
        first_seen := 0, last_seen := 9 } =
      (some ("Claude rate limit hit " ++ toString (4 : Nat) ++ "x in " ++ "contextService" ++
        "." ++ "generate_context" ++
        ". Consider reducing batch sizes or adding longer delays between batches."),
       [{ pattern_id := some "claude_rate_limit"
          resolution := "Detected by self-anneal: rate limit pattern. Logged recommendation to reduce batch sizes."
          auto_fixed := true }]) :=
  (tryAutoFix_decision_table _).1 rfl (by decide)

/-! ## Claim theorems: output-quality sweep (C5) -/

/-- The learning string of the empty-summary condition. -/
def emptySummaryLearning (e n : Nat) : String :=
  "Found " ++ toString e ++ " empty summaries in last " ++ toString n ++
  " interactions. Claude may be returning empty responses for very short inputs."

/-- The aggregated record logged for the empty-summary condition. -/
def emptySummaryEntry (e n : Nat) : LogEntry :=
  { error_type := "quality_issue", service := "claudeService"
    operation := "summarize_interaction"
    error_message := emptySummaryLearning e n
    pattern_id := some "empty_summary"
    context := [("sample_size", CtxVal.nat n), ("empty_count", CtxVal.nat e)] }

/-- The learning string of the short-summary condition. -/
def shortSummaryLearning (s n : Nat) : String :=
  "Found " ++ toString s ++ "/" ++ toString n ++
  " very short summaries (<20 chars). May indicate input content too brief for meaningful summarization."

/-- The aggregated record logged for the short-summary condition. -/
def shortSummaryEntry (s n : Nat) : LogEntry :=
  { error_type := "quality_issue", service := "claudeService"
    operation := "summarize_interaction"
    error_message := shortSummaryLearning s n
    pattern_id := some "short_summary"
    context := [("sample_size", CtxVal.nat n), ("short_count", CtxVal.nat s)] }

/-- An interaction row with a comfortably long summary. -/
def longRow (i : String) : InteractionRow :=
  { id := i, summary := some "a sufficiently long interaction summary"
    raw_content := some "raw", created_at := 0 }

/-- An interaction row with an empty summary. -/
def emptyRow (i : String) : InteractionRow :=
  { id := i, summary := some "", raw_content := some "raw", created_at := 0 }

/-- A sample of 10 with exactly one short (but non-empty) summary. -/
def oneShortRows : List InteractionRow :=
  [{ id := "s1", summary := some "too short", raw_content := some "raw", created_at := 0 },
   longRow "s2", longRow "s3", longRow "s4", longRow "s5", longRow "s6"
   , longRow "s7", longRow "s8", longRow "s9", longRow "s10"]

/-- A sample of 10 with exactly four empty summaries. -/
def fourEmptyRows : List InteractionRow :=
  [emptyRow "e1", emptyRow "e2", emptyRow "e3", emptyRow "e4"
   , longRow "e5", longRow "e6", longRow "e7", longRow "e8", longRow "e9", longRow "e10"]

/-- **C5 counterexample**: in a sample of 10 with a short count of 1
(non-zero), the sweep logs no record at all — refuting the claim that a
`short_summary` record is logged whenever the short count is non-zero. -/
theorem checkSummaryQuality_short_one_no_record :
    (((oneShortRows.filter (fun r => r.summary.isSome && r.raw_content.isSome)).take 10).countP
        (fun r => !isEmptySummary (r.summary.getD "") &&
          decide ((r.summary.getD "").length < 20)) = 1) ∧
    checkSummaryQuality oneShortRows = ([], []) := by
  constructor
  · rfl
  · rfl

/-- **C5 (amended)**: the sweep samples the 10 most recent summarized
interactions, counts empty summaries and separately counts non-empty
summaries shorter than 20 characters, and logs exactly one aggregated
`empty_summary` record (with sample size and empty count) when the empty
count is non-zero and exactly one `short_summary` record when the short
count is at least 3 (not merely non-zero); a sample of 10 with 4 empty
summaries yields exactly one record, tagged `empty_summary` with
`empty_count = 4`. -/
theorem checkSummaryQuality_characterization (interactions : List InteractionRow) :
    (checkSummaryQuality interactions =
      (let sample :=
        (interactions.filter (fun r => r.summary.isSome && r.raw_content.isSome)).take 10
       let e := sample.countP (fun r => isEmptySummary (r.summary.getD ""))
       let s := sample.countP (fun r => !isEmptySummary (r.summary.getD "") &&
         decide ((r.summary.getD "").length < 20))
       ((if 0 < e then [emptySummaryLearning e sample.length] else []) ++
          (if 3 ≤ s then [shortSummaryLearning s sample.length] else []),
        (if 0 < e then [emptySummaryEntry e sample.length] else []) ++
          (if 3 ≤ s then [shortSummaryEntry s sample.length] else [])))) ∧
    checkSummaryQuality fourEmptyRows =
      ([emptySummaryLearning 4 10], [emptySummaryEntry 4 10]) := by
  constructor
  · cases hs : ((interactions.filter (fun r => r.summary.isSome && r.raw_content.isSome)).take 10) with
    | nil =>
        simp only [checkSummaryQuality, hs]
        rfl
    | cons a l =>
        simp only [checkSummaryQuality, hs]
        split_ifs <;> first | rfl | simp_all
  · rfl

/-! ## Claim theorems: coordination-backlog sweep (C9) -/

/-- The learning string of the escalation tier. -/
def escalationLearning (n : Nat) : String :=
  toString n ++ " high/critical priority handoff(s) pending > 4 hours. Immediate attention required."

/-- The aggregated record logged for the escalation tier. -/
def escalationEntry (n : Nat) (ids : List String) : LogEntry :=
  { error_type := "quality_issue", service := "handoffService"
    operation := "orphaned_handoff_check"
    error_message := escalationLearning n
    pattern_id := some "overdue_escalation_handoff"
    context := [("handoff_ids", CtxVal.strList ids)] }

/-- The learning string of the stuck (normal ≥ 24 h) tier. -/
def stuckLearning (n : Nat) : String :=
  toString n ++ " normal-priority handoff(s) pending > 24 hours. May be stuck."

/-- The aggregated record logged for the stuck tier. -/
def stuckEntry (n : Nat) (ids : List String) : LogEntry :=
  { error_type := "quality_issue", service := "handoffService"
    operation := "orphaned_handoff_check"
    error_message := stuckLearning n
    pattern_id := some "stuck_handoff"
    context := [("handoff_ids", CtxVal.strList ids)] }

/-- A pending high-urgency handoff created 5 hours before time 0. -/
def handoffHigh5h : HandoffRow :=
  { id := "h1", from_agent := some "atlas", to_agent := some "hermes"
    urgency := "high", status := "pending", created_at := -(5 * msPerHour) }

/-- A pending normal-urgency handoff created 25 hours before time 0. -/
def handoffNormal25h : HandoffRow :=
  { id := "h2", from_agent := some "atlas", to_agent := none
    urgency := "normal", status := "pending", created_at := -(25 * msPerHour) }

/-- **C9**: the backlog sweep takes the pending handoffs at least 4 hours
old, splits them into the escalation tier (urgency high/critical) and the
normal tier, logs one aggregated record for the escalation tier whenever it
is non-empty and one for the normal items older than 24 hours; concretely,
a 5-hour-old high-urgency handoff appears (only) in the escalation record
and a 25-hour-old normal one appears (only) in the stuck record. -/
theorem checkOrphanedHandoffs_tiers (hs : List HandoffRow) (now : Int) :
    (checkOrphanedHandoffs hs now =
      (let overdue := hs.filter (fun h => h.status == "pending" &&
         decide (h.created_at ≤ now - 4 * msPerHour))
       let esc := overdue.filter (fun h => h.urgency == "high" || h.urgency == "critical")
       let old := (overdue.filter (fun h => h.urgency != "high" && h.urgency != "critical")).filter
         (fun h => decide (h.created_at < now - 24 * msPerHour))
       ((if 0 < esc.length then [escalationLearning esc.length] else []) ++
          (if 0 < old.length then [stuckLearning old.length] else []),
        (if 0 < esc.length then [escalationEntry esc.length (esc.map (fun h => h.id))] else []) ++
          (if 0 < old.length then [stuckEntry old.length (old.map (fun h => h.id))] else [])))) ∧
    checkOrphanedHandoffs [handoffHigh5h, handoffNormal25h] 0 =
      ([escalationLearning 1, stuckLearning 1],
       [escalationEntry 1 ["h1"], stuckEntry 1 ["h2"]]) := by
  constructor
  · cases ho : hs.filter (fun h => h.status == "pending" &&
      decide (h.created_at ≤ now - 4 * msPerHour)) with
    | nil =>
        simp only [checkOrphanedHandoffs, ho]
        rfl
    | cons a l =>
        simp only [checkOrphanedHandoffs, ho]
        split_ifs <;> first | rfl | simp_all
  · rfl

/-! ## Claim theorems: resolveErrors (C3) -/

/-- Under the journal invariant (an unresolved row has no resolution text and
no auto-fixed flag), the `resolved_at is null AND pattern_id = pid` filter of
`resolveErrors` selects exactly the rows whose three resolution fields are
all still unset and which carry the pattern. -/
theorem resolveMatchesPid_iff_unset (pid : String) (r : ErrRow)
    (hr : r.resolved_at = none → r.resolution = none ∧ r.auto_fixed = false) :
    resolveMatchesPid pid r = true ↔
      (r.resolution = none ∧ r.resolved_at = none ∧ r.auto_fixed = false ∧
        r.pattern_id = some pid) := by
  unfold resolveMatchesPid
  simp only [Bool.and_eq_true, beq_iff_eq]
  constructor
  · rintro ⟨h1, h2⟩
    obtain ⟨h3, h4⟩ := hr h1
    exact ⟨h3, h1, h4, h2⟩
  · rintro ⟨_, h1, _, h2⟩
    exact ⟨h1, h2⟩

/-- **C3**: `resolveErrors` (pattern-scoped) updates exactly the records
whose resolution fields are still unset and returns their number, leaving
every other record untouched; running it again immediately resolves 0
records and changes nothing (idempotence). The hypothesis is the journal
invariant: rows are created with all three resolution fields unset and only
ever resolved together. -/
theorem resolveErrors_unset_only_idempotent (db : List ErrRow) (t1 t2 : Int)
    (pid resText : String) (af : Option Bool)
    (hinv : ∀ r ∈ db, r.resolved_at = none → r.resolution = none ∧ r.auto_fixed = false) :
    ((resolveErrors db t1 ⟨some pid, [], resText, af⟩).2 =
       db.countP (fun r => decide (r.resolution = none ∧ r.resolved_at = none ∧
         r.auto_fixed = false ∧ r.pattern_id = some pid))) ∧
    ((resolveErrors db t1 ⟨some pid, [], resText, af⟩).1 =
       db.map (fun r =>
         if r.resolution = none ∧ r.resolved_at = none ∧ r.auto_fixed = false ∧
             r.pattern_id = some pid then
           applyResolution ⟨some pid, [], resText, af⟩ t1 r
         else r)) ∧
    ((resolveErrors (resolveErrors db t1 ⟨some pid, [], resText, af⟩).1 t2
        ⟨some pid, [], resText, af⟩).2 = 0) ∧
    ((resolveErrors (resolveErrors db t1 ⟨some pid, [], resText, af⟩).1 t2
        ⟨some pid, [], resText, af⟩).1 =
       (resolveErrors db t1 ⟨some pid, [], resText, af⟩).1) := by
  have hiff : ∀ r ∈ db, resolveMatchesPid pid r = true ↔
      (r.resolution = none ∧ r.resolved_at = none ∧ r.auto_fixed = false ∧
        r.pattern_id = some pid) :=
    fun r hr => resolveMatchesPid_iff_unset pid r (hinv r hr)
  have hall : ∀ r1 ∈ (resolveErrors db t1 ⟨some pid, [], resText, af⟩).1,
      resolveMatchesPid pid r1 = false := by
    intro r1 hr1
    simp only [resolveErrors, List.mem_map] at hr1
    obtain ⟨r, _, hmap⟩ := hr1
    by_cases hm : resolveMatchesPid pid r = true
    · rw [if_pos hm] at hmap
      rw [← hmap]
      unfold resolveMatchesPid applyResolution
      simp
    · rw [if_neg hm] at hmap
      rw [← hmap]
      exact Bool.eq_false_iff.mpr hm
  refine ⟨?_, ?_, ?_, ?_⟩
  · show db.countP (resolveMatchesPid pid) = _
    exact List.countP_congr (by
      intro r hr
      simpa using hiff r hr)
  · show db.map _ = _
    refine List.map_congr_left ?_
    intro r hr
    by_cases hm : resolveMatchesPid pid r = true
    · rw [if_pos hm, if_pos ((hiff r hr).mp hm)]
    · rw [if_neg hm, if_neg (fun hc => hm ((hiff r hr).mpr hc))]
  · show (_ : List ErrRow).countP (resolveMatchesPid pid) = 0
    rw [List.countP_eq_zero]
    intro r1 hr1
    simp [hall r1 hr1]
  · show (_ : List ErrRow).map _ = _
    have : ∀ r1 ∈ (resolveErrors db t1 ⟨some pid, [], resText, af⟩).1,
        (if resolveMatchesPid pid r1 then
          applyResolution ⟨some pid, [], resText, af⟩ t2 r1 else r1) = r1 := by
      intro r1 hr1
      rw [if_neg (by simp [hall r1 hr1])]
    rw [List.map_congr_left this]
    exact List.map_id _

/-- An unresolved journal row carrying the given pattern tag. -/
def unresolvedRow (i pid : String) (t : Int) : ErrRow :=
  { id := i, error_type := "claude_error", service := "contextService"
    operation := "generate_context", error_message := "rate_limit hit"
    pattern_id := some pid, resolution := none, resolved_at := none
    auto_fixed := false, created_at := t }

/-- A small journal: two unresolved rows with the target pattern, one with a
different pattern, one already resolved with the target pattern. -/
def resolveDb : List ErrRow :=
  [unresolvedRow "e1" "claude_rate_limit" 1,
   unresolvedRow "e2" "claude_rate_limit" 2,
   unresolvedRow "e3" "other_pattern" 3,
   { unresolvedRow "e4" "claude_rate_limit" 4 with
     resolution := some "done", resolved_at := some 5, auto_fixed := true }]

/-- **C3 witness**: on the concrete journal, the first call resolves
N = 2 records and the second call resolves 0. -/
theorem resolveErrors_unset_only_idempotent_witness :
    (resolveErrors resolveDb 10 ⟨some "claude_rate_limit", [], "fixed", some true⟩).2 = 2 ∧
    (resolveErrors (resolveErrors resolveDb 10
        ⟨some "claude_rate_limit", [], "fixed", some true⟩).1 11
      ⟨some "claude_rate_limit", [], "fixed", some true⟩).2 = 0 := by
  have h := resolveErrors_unset_only_idempotent resolveDb 10 11 "claude_rate_limit"
    "fixed" (some true) (by decide)
  exact ⟨by rw [h.1]; rfl, h.2.2.1⟩

/-! ## Claim theorems: pattern detector grouping (C7)

Auxiliary lemmas about the `Map`-based grouping loop of `getErrorPatterns`:
`updateGroup` single-step facts, their lifts along the per-group fold, and a
characterization of `insertRow`. -/

/-- The rows of the selection belonging to one grouping key. -/
def groupRows (rows : List ErrRow) (k : String × String × String) : List ErrRow :=
  rows.filter (fun r => decide (rowKey r = k))

/-- Folding the remaining rows of a group into its aggregate. -/
def foldAgg (g : ErrorPattern) (l : List ErrRow) : ErrorPattern :=
  l.foldl updateGroup g

theorem initPattern_key (r : ErrRow) : patKey (initPattern r) = rowKey r := rfl

theorem updateGroup_key (g : ErrorPattern) (r : ErrRow) :
    patKey (updateGroup g r) = patKey g := by
  simp only [updateGroup]
  split_ifs <;> rfl

theorem updateGroup_count (g : ErrorPattern) (r : ErrRow) :
    (updateGroup g r).count = g.count + 1 := by
  simp only [updateGroup]
  split_ifs <;> rfl

theorem updateGroup_last_ge_self (g : ErrorPattern) (r : ErrRow) :
    g.last_seen ≤ (updateGroup g r).last_seen := by
  simp only [updateGroup]
  split_ifs <;> simp_all <;> omega

theorem updateGroup_last_ge_row (g : ErrorPattern) (r : ErrRow) :
    r.created_at ≤ (updateGroup g r).last_seen := by
  simp only [updateGroup]
  split_ifs <;> simp_all

theorem updateGroup_first_le_self (g : ErrorPattern) (r : ErrRow) :
    (updateGroup g r).first_seen ≤ g.first_seen := by
  simp only [updateGroup]
  split_ifs <;> simp_all <;> omega

theorem updateGroup_first_le_row (g : ErrorPattern) (r : ErrRow) :
    (updateGroup g r).first_seen ≤ r.created_at := by
  simp only [updateGroup]
  split_ifs <;> simp_all

theorem updateGroup_pair (g : ErrorPattern) (r : ErrRow) :
    ((updateGroup g r).last_seen = g.last_seen ∧
      (updateGroup g r).latest_message = g.latest_message) ∨
    ((updateGroup g r).last_seen = r.created_at ∧
      (updateGroup g r).latest_message = r.error_message) := by
  simp only [updateGroup]
  split_ifs <;> simp

theorem updateGroup_first_pair (g : ErrorPattern) (r : ErrRow) :
    (updateGroup g r).first_seen = g.first_seen ∨
    (updateGroup g r).first_seen = r.created_at := by
  simp only [updateGroup]
  split_ifs <;> simp

theorem foldAgg_cons (g : ErrorPattern) (r : ErrRow) (l : List ErrRow) :
    foldAgg g (r :: l) = foldAgg (updateGroup g r) l := rfl

theorem foldAgg_key (l : List ErrRow) :
    ∀ g, patKey (foldAgg g l) = patKey g := by
  induction l with
  | nil => intro g; rfl
  | cons r l ih =>
      intro g
      rw [foldAgg_cons, ih, updateGroup_key]

theorem foldAgg_count (l : List ErrRow) :
    ∀ g, (foldAgg g l).count = g.count + l.length := by
  induction l with
  | nil => intro g; rfl
  | cons r l ih =>
      intro g
      rw [foldAgg_cons, ih, updateGroup_count, List.length_cons]
      omega

theorem foldAgg_last_ge (l : List ErrRow) :
    ∀ g, g.last_seen ≤ (foldAgg g l).last_seen ∧
      ∀ r ∈ l, r.created_at ≤ (foldAgg g l).last_seen := by
  induction l with
  | nil => intro g; exact ⟨le_refl _, by simp⟩
  | cons r0 l ih =>
      intro g
      rw [foldAgg_cons]
      refine ⟨le_trans (updateGroup_last_ge_self g r0) (ih (updateGroup g r0)).1, ?_⟩
      intro r hr
      rcases List.mem_cons.mp hr with h | h
      · rw [h]
        exact le_trans (updateGroup_last_ge_row g r0) (ih (updateGroup g r0)).1
      · exact (ih (updateGroup g r0)).2 r h

theorem foldAgg_first_le (l : List ErrRow) :
    ∀ g, (foldAgg g l).first_seen ≤ g.first_seen ∧
      ∀ r ∈ l, (foldAgg g l).first_seen ≤ r.created_at := by
  induction l with
  | nil => intro g; exact ⟨le_refl _, by simp⟩
  | cons r0 l ih =>
      intro g
      rw [foldAgg_cons]
      refine ⟨le_trans (ih (updateGroup g r0)).1 (updateGroup_first_le_self g r0), ?_⟩
      intro r hr
      rcases List.mem_cons.mp hr with h | h
      · rw [h]
        exact le_trans (ih (updateGroup g r0)).1 (updateGroup_first_le_row g r0)
      · exact (ih (updateGroup g r0)).2 r h

theorem foldAgg_pair (l : List ErrRow) :
    ∀ g, ((foldAgg g l).last_seen = g.last_seen ∧
        (foldAgg g l).latest_message = g.latest_message) ∨
      ∃ r ∈ l, r.created_at = (foldAgg g l).last_seen ∧
        r.error_message = (foldAgg g l).latest_message := by
  induction l with
  | nil => intro g; exact Or.inl ⟨rfl, rfl⟩
  | cons r0 l ih =>
      intro g
      rw [foldAgg_cons]
      rcases ih (updateGroup g r0) with ⟨h1, h2⟩ | ⟨r, hr, h1, h2⟩
      · rcases updateGroup_pair g r0 with ⟨u1, u2⟩ | ⟨u1, u2⟩
        · exact Or.inl ⟨h1.trans u1, h2.trans u2⟩
        · exact Or.inr ⟨r0, List.mem_cons_self r0 l, by rw [h1, u1], by rw [h2, u2]⟩
      · exact Or.inr ⟨r, List.mem_cons_of_mem r0 hr, h1, h2⟩

theorem foldAgg_first_pair (l : List ErrRow) :
    ∀ g, (foldAgg g l).first_seen = g.first_seen ∨
      ∃ r ∈ l, r.created_at = (foldAgg g l).first_seen := by
  induction l with
  | nil => intro g; exact Or.inl rfl
  | cons r0 l ih =>
      intro g
      rw [foldAgg_cons]
      rcases ih (updateGroup g r0) with h | ⟨r, hr, h⟩
      · rcases updateGroup_first_pair g r0 with u | u
        · exact Or.inl (h.trans u)
        · exact Or.inr ⟨r0, List.mem_cons_self r0 l, by rw [h, u]⟩
      · exact Or.inr ⟨r, List.mem_cons_of_mem r0 hr, h⟩

theorem groupRows_cons_eq (r0 : ErrRow) (rest : List ErrRow)
    (k : String × String × String) (h : rowKey r0 = k) :
    groupRows (r0 :: rest) k = r0 :: groupRows rest k := by
  simp [groupRows, h]

theorem groupRows_cons_ne (r0 : ErrRow) (rest : List ErrRow)
    (k : String × String × String) (h : ¬ rowKey r0 = k) :
    groupRows (r0 :: rest) k = groupRows rest k := by
  simp [groupRows, h]

theorem insertRow_absent (gs : List ErrorPattern) (r : ErrRow)
    (h : ∀ g ∈ gs, ¬ patKey g = rowKey r) :
    insertRow gs r = gs ++ [initPattern r] := by
  induction gs with
  | nil => rfl
  | cons g gs ih =>
      simp only [insertRow]
      rw [if_neg (h g (List.mem_cons_self g gs))]
      rw [ih (fun g' hg' => h g' (List.mem_cons_of_mem _ hg'))]
      rfl

theorem insertRow_present (gs : List ErrorPattern) (r : ErrRow)
    (hnd : (gs.map patKey).Nodup) (hex : ∃ q ∈ gs, patKey q = rowKey r) :
    ∃ gs1 q0 gs2, gs = gs1 ++ q0 :: gs2 ∧ patKey q0 = rowKey r ∧
      insertRow gs r = gs1 ++ updateGroup q0 r :: gs2 ∧
      (∀ g ∈ gs1 ++ gs2, ¬ patKey g = rowKey r) := by
  induction gs with
  | nil => simp at hex
  | cons g gs ih =>
      by_cases hk : patKey g = rowKey r
      · refine ⟨[], g, gs, rfl, hk, ?_, ?_⟩
        · simp only [insertRow, if_pos hk]
          rfl
        · intro g' hg' hc
          have hmem : patKey g ∈ gs.map patKey := by
            rw [hk, ← hc]
            exact List.mem_map_of_mem patKey (by simpa using hg')
          exact (List.nodup_cons.mp (by simpa using hnd)).1 hmem
      · obtain ⟨q, hq, hqk⟩ := hex
        have hq' : q ∈ gs := by
          rcases List.mem_cons.mp hq with h | h
          · exact absurd (h ▸ hqk) hk
          · exact h
        obtain ⟨gs1, q0, gs2, hsplit, hq0k, hins, hrest⟩ :=
          ih (List.nodup_cons.mp (by simpa using hnd)).2 ⟨q, hq', hqk⟩
        refine ⟨g :: gs1, q0, gs2, by rw [hsplit]; rfl, hq0k, ?_, ?_⟩
        · simp only [insertRow, if_neg hk, hins]
          rfl
        · intro g' hg'
          rcases List.mem_cons.mp (by simpa using hg' : g' ∈ g :: (gs1 ++ gs2)) with h | h
          · exact h ▸ hk
          · exact hrest g' h

/-- Invariant of the grouping fold: starting from an accumulator with
distinct keys, every produced pattern is either the continuation of an
accumulator entry folded over the rows of its key, or the aggregate of a
fresh key's rows; keys stay distinct, every row's key is represented, and
accumulator keys survive. -/
theorem foldl_insertRow_spec (rows : List ErrRow) :
    ∀ acc : List ErrorPattern, (acc.map patKey).Nodup →
      ((List.foldl insertRow acc rows).map patKey).Nodup ∧
      (∀ p ∈ List.foldl insertRow acc rows,
        (∃ q ∈ acc, patKey q = patKey p ∧ p = foldAgg q (groupRows rows (patKey q)))
        ∨ ((∀ q ∈ acc, ¬ patKey q = patKey p) ∧
           ∃ r rs, groupRows rows (patKey p) = r :: rs ∧
             p = foldAgg (initPattern r) rs)) ∧
      (∀ r ∈ rows, ∃ p ∈ List.foldl insertRow acc rows, patKey p = rowKey r) ∧
      (∀ q ∈ acc, ∃ p ∈ List.foldl insertRow acc rows, patKey p = patKey q) := by
  induction rows with
  | nil =>
      intro acc hnd
      refine ⟨hnd, ?_, by simp, ?_⟩
      · intro p hp
        exact Or.inl ⟨p, hp, rfl, rfl⟩
      · intro q hq
        exact ⟨q, hq, rfl⟩
  | cons r0 rest ih =>
      intro acc hnd
      rw [List.foldl_cons]
      by_cases hex : ∃ q ∈ acc, patKey q = rowKey r0
      · -- the key of r0 is already present: its group entry is updated
        obtain ⟨gs1, q0, gs2, hsplit, hq0k, hins, hrest⟩ :=
          insertRow_present acc r0 hnd hex
        rw [hins]
        have hq0mem : q0 ∈ acc := by
          rw [hsplit]; exact List.mem_append_right _ (List.mem_cons_self _ _)
        have hnd' : (((gs1 ++ updateGroup q0 r0 :: gs2)).map patKey).Nodup := by
          have : (gs1 ++ updateGroup q0 r0 :: gs2).map patKey =
              (gs1 ++ q0 :: gs2).map patKey := by
            simp [updateGroup_key]
          rw [this, ← hsplit]
          exact hnd
        obtain ⟨ind1, ind2, ind3, ind4⟩ := ih (gs1 ++ updateGroup q0 r0 :: gs2) hnd'
        have hupmem : updateGroup q0 r0 ∈ gs1 ++ updateGroup q0 r0 :: gs2 :=
          List.mem_append_right _ (List.mem_cons_self _ _)
        have haccmap : ∀ q ∈ acc, ∃ q' ∈ gs1 ++ updateGroup q0 r0 :: gs2,
            patKey q' = patKey q := by
          intro q hq
          rw [hsplit] at hq
          rcases List.mem_append.mp hq with h | h
          · exact ⟨q, List.mem_append_left _ h, rfl⟩
          · rcases List.mem_cons.mp h with h | h
            · exact ⟨updateGroup q0 r0, hupmem, by rw [updateGroup_key, h]⟩
            · exact ⟨q, List.mem_append_right _ (List.mem_cons_of_mem _ h), rfl⟩
        refine ⟨ind1, ?_, ?_, ?_⟩
        · intro p hp
          rcases ind2 p hp with ⟨q', hq', hkey, hfold⟩ | ⟨hnone, r, rs, hgr, hfold⟩
          · rcases List.mem_append.mp hq' with h | h
            · -- q' untouched in gs1
              have hne : ¬ patKey q' = rowKey r0 := hrest q' (List.mem_append_left _ h)
              refine Or.inl ⟨q', ?_, hkey, ?_⟩
              · rw [hsplit]; exact List.mem_append_left _ h
              · rw [groupRows_cons_ne r0 rest (patKey q') (fun hc => hne hc.symm)]
                exact hfold
            · rcases List.mem_cons.mp h with h | h
              · -- q' is the updated entry
                subst h
                refine Or.inl ⟨q0, hq0mem, by rw [← hkey, updateGroup_key], ?_⟩
                rw [updateGroup_key] at hfold
                rw [groupRows_cons_eq r0 rest (patKey q0) hq0k.symm, foldAgg_cons]
                exact hfold
              · -- q' untouched in gs2
                have hne : ¬ patKey q' = rowKey r0 :=
                  hrest q' (List.mem_append_right _ h)
                refine Or.inl ⟨q', ?_, hkey, ?_⟩
                · rw [hsplit]
                  exact List.mem_append_right _ (List.mem_cons_of_mem _ h)
                · rw [groupRows_cons_ne r0 rest (patKey q') (fun hc => hne hc.symm)]
                  exact hfold
          · -- fresh key within rest: also fresh for acc and ≠ rowKey r0
            have hner0 : ¬ patKey p = rowKey r0 := by
              intro hc
              exact hnone (updateGroup q0 r0) hupmem (by rw [updateGroup_key, hq0k, hc])
            refine Or.inr ⟨?_, r, rs, ?_, hfold⟩
            · intro q hq hc
              obtain ⟨q', hq', hk'⟩ := haccmap q hq
              exact hnone q' hq' (by rw [hk', hc])
            · rw [groupRows_cons_ne r0 rest (patKey p) (fun hc => hner0 hc.symm)]
              exact hgr
        · intro r hr
          rcases List.mem_cons.mp hr with h | h
          · obtain ⟨p, hp, hk⟩ := ind4 (updateGroup q0 r0) hupmem
            exact ⟨p, hp, by rw [hk, updateGroup_key, hq0k, h]⟩
          · exact ind3 r h
        · intro q hq
          obtain ⟨q', hq', hk'⟩ := haccmap q hq
          obtain ⟨p, hp, hk⟩ := ind4 q' hq'
          exact ⟨p, hp, by rw [hk, hk']⟩
      · -- fresh key: a new group is appended
        push_neg at hex
        rw [insertRow_absent acc r0 hex]
        have hnd' : ((acc ++ [initPattern r0]).map patKey).Nodup := by
          rw [List.map_append]
          refine List.Nodup.append hnd (by simp) ?_
          intro k hk1 hk2
          simp only [List.map_cons, List.map_nil, List.mem_singleton] at hk2
          obtain ⟨q, hq, hqk⟩ := List.mem_map.mp hk1
          exact hex q hq (by rw [hqk, hk2, initPattern_key])
        obtain ⟨ind1, ind2, ind3, ind4⟩ := ih (acc ++ [initPattern r0]) hnd'
        have hinitmem : initPattern r0 ∈ acc ++ [initPattern r0] :=
          List.mem_append_right _ (List.mem_singleton.mpr rfl)
        refine ⟨ind1, ?_, ?_, ?_⟩
        · intro p hp
          rcases ind2 p hp with ⟨q', hq', hkey, hfold⟩ | ⟨hnone, r, rs, hgr, hfold⟩
          · rcases List.mem_append.mp hq' with h | h
            · have hne : ¬ patKey q' = rowKey r0 := hex q' h
              refine Or.inl ⟨q', h, hkey, ?_⟩
              rw [groupRows_cons_ne r0 rest (patKey q') (fun hc => hne hc.symm)]
              exact hfold
            · -- q' is the new initPattern r0 entry
              have h0 : q' = initPattern r0 := List.mem_singleton.mp h
              subst h0
              refine Or.inr ⟨?_, r0, groupRows rest (rowKey r0), ?_, ?_⟩
              · intro q hq hc
                exact hex q hq (by rw [hc, ← hkey, initPattern_key])
              · rw [← hkey, initPattern_key]
                exact groupRows_cons_eq r0 rest (rowKey r0) rfl
              · rw [initPattern_key] at hfold
                exact hfold
          · have hner0 : ¬ patKey p = rowKey r0 := by
              intro hc
              exact hnone (initPattern r0) hinitmem (by rw [initPattern_key, hc])
            refine Or.inr ⟨?_, r, rs, ?_, hfold⟩
            · intro q hq
              exact hnone q (List.mem_append_left _ hq)
            · rw [groupRows_cons_ne r0 rest (patKey p) (fun hc => hner0 hc.symm)]
              exact hgr
        · intro r hr
          rcases List.mem_cons.mp hr with h | h
          · obtain ⟨p, hp, hk⟩ := ind4 (initPattern r0) hinitmem
            exact ⟨p, hp, by rw [hk, initPattern_key, h]⟩
          · exact ind3 r h
        · intro q hq
          obtain ⟨p, hp, hk⟩ := ind4 q (List.mem_append_left _ hq)
          exact ⟨p, hp, hk⟩

/-- `buildGroups` produces, for each distinct key of the selected rows, the
aggregate of exactly that key's rows. -/
theorem buildGroups_spec (rows : List ErrRow) :
    ((buildGroups rows).map patKey).Nodup ∧
    (∀ p ∈ buildGroups rows,
       ∃ r rs, groupRows rows (patKey p) = r :: rs ∧ p = foldAgg (initPattern r) rs) ∧
    (∀ r ∈ rows, ∃ p ∈ buildGroups rows, patKey p = rowKey r) := by
  obtain ⟨h1, h2, h3, _⟩ := foldl_insertRow_spec rows [] (by simp)
  refine ⟨h1, ?_, h3⟩
  intro p hp
  rcases h2 p hp with ⟨q, hq, _⟩ | ⟨_, h⟩
  · simp at hq
  · exact h

/-- The per-group aggregate facts: count, first/last bounds and attainment,
and provenance of the latest message. -/
theorem buildGroups_pattern_props (rows : List ErrRow) (p : ErrorPattern)
    (hp : p ∈ buildGroups rows) :
    p.count = (groupRows rows (patKey p)).length ∧
    (∀ r ∈ groupRows rows (patKey p),
      p.first_seen ≤ r.created_at ∧ r.created_at ≤ p.last_seen) ∧
    (∃ r ∈ groupRows rows (patKey p),
      r.created_at = p.last_seen ∧ r.error_message = p.latest_message) ∧
    (∃ r ∈ groupRows rows (patKey p), r.created_at = p.first_seen) := by
  obtain ⟨r, rs, hgr, hfold⟩ := (buildGroups_spec rows).2.1 p hp
  have hinit_last : (initPattern r).last_seen = r.created_at := rfl
  have hinit_first : (initPattern r).first_seen = r.created_at := rfl
  refine ⟨?_, ?_, ?_, ?_⟩
  · have hcount : p.count = (initPattern r).count + rs.length := by
      rw [hfold, foldAgg_count]
    rw [hcount, hgr]
    simp only [initPattern, List.length_cons]
    omega
  · intro x hx
    rw [hgr] at hx
    rcases List.mem_cons.mp hx with h | h
    · constructor
      · rw [hfold, h]
        exact le_of_le_of_eq ((foldAgg_first_le rs (initPattern r)).1) hinit_first
      · rw [hfold, h]
        exact le_trans (le_of_eq hinit_last.symm) ((foldAgg_last_ge rs (initPattern r)).1)
    · constructor
      · rw [hfold]
        exact (foldAgg_first_le rs (initPattern r)).2 x h
      · rw [hfold]
        exact (foldAgg_last_ge rs (initPattern r)).2 x h
  · rcases foldAgg_pair rs (initPattern r) with ⟨h1, h2⟩ | ⟨x, hx, h1, h2⟩
    · refine ⟨r, by rw [hgr]; exact List.mem_cons_self r rs, ?_, ?_⟩
      · rw [hfold, h1, hinit_last]
      · rw [hfold, h2]
        rfl
    · exact ⟨x, by rw [hgr]; exact List.mem_cons_of_mem r hx, by rw [hfold]; exact ⟨h1, h2⟩⟩
  · rcases foldAgg_first_pair rs (initPattern r) with h | ⟨x, hx, h⟩
    · exact ⟨r, by rw [hgr]; exact List.mem_cons_self r rs, by rw [hfold, h, hinit_first]⟩
    · exact ⟨x, by rw [hgr]; exact List.mem_cons_of_mem r hx, by rw [hfold]; exact h⟩

/-- An unresolved journal row of service `svc`, classification `api_error`. -/
def exRow7 (i op msg : String) (t : Int) : ErrRow :=
  { id := i, error_type := "api_error", service := "svc", operation := op
    error_message := msg, pattern_id := none, resolution := none
    resolved_at := none, auto_fixed := false, created_at := t }

/-- Five rows sharing one (classification, service, operation) triple and one
row differing only in operation, all unresolved and inside the window. -/
def exampleDb7 : List ErrRow :=
  [exRow7 "r1" "opA" "m1" 10, exRow7 "r2" "opA" "m2" 20, exRow7 "r3" "opA" "m3" 30,
   exRow7 "r4" "opA" "m4" 40, exRow7 "r5" "opA" "m5" 50, exRow7 "r6" "opB" "m6" 60]

/-- The aggregated group of the five `opA` rows. -/
def exampleGroupA : ErrorPattern :=
  { error_type := "api_error", service := "svc", operation := "opA"
    pattern_id := none, count := 5, latest_message := "m5"
    first_seen := 10, last_seen := 50 }

/-- **C7**: `getErrorPatterns` considers exactly the unresolved rows created
within the window, partitions them by the (classification, service,
operation) triple — each group's count is the number of its rows, its
first-seen/last-seen are attained bounds of the group's timestamps, and its
latest message is the message of a most-recent row — with distinct group
keys covering every selected row, and returns the groups sorted by count
descending. Injecting 5 rows with one triple and 1 differing in operation
yields exactly the counts [5, 1]. -/
theorem getErrorPatterns_partition (db : List ErrRow) (now hours : Int) :
    (∀ p ∈ getErrorPatterns db now hours,
      p.count = (groupRows (db.filter (inWindowUnresolved (now - hours * msPerHour)))
        (patKey p)).length ∧
      (∀ r ∈ groupRows (db.filter (inWindowUnresolved (now - hours * msPerHour))) (patKey p),
        p.first_seen ≤ r.created_at ∧ r.created_at ≤ p.last_seen) ∧
      (∃ r ∈ groupRows (db.filter (inWindowUnresolved (now - hours * msPerHour))) (patKey p),
        r.created_at = p.last_seen ∧ r.error_message = p.latest_message) ∧
      (∃ r ∈ groupRows (db.filter (inWindowUnresolved (now - hours * msPerHour))) (patKey p),
        r.created_at = p.first_seen)) ∧
    (∀ r ∈ db.filter (inWindowUnresolved (now - hours * msPerHour)),
      ∃ p ∈ getErrorPatterns db now hours, patKey p = rowKey r) ∧
    ((getErrorPatterns db now hours).map patKey).Nodup ∧
    List.Sorted countDesc (getErrorPatterns db now hours) ∧
    (getErrorPatterns exampleDb7 100 4).map (fun p => p.count) = [5, 1] := by
  have hperm : List.Perm (getErrorPatterns db now hours)
      (buildGroups (db.filter (inWindowUnresolved (now - hours * msPerHour)))) := by
    unfold getErrorPatterns
    exact List.perm_insertionSort countDesc _
  refine ⟨?_, ?_, ?_, ?_, by decide⟩
  · intro p hp
    exact buildGroups_pattern_props _ p (hperm.mem_iff.mp hp)
  · intro r hr
    obtain ⟨p, hp, hk⟩ :=
      (buildGroups_spec (db.filter (inWindowUnresolved (now - hours * msPerHour)))).2.2 r hr
    exact ⟨p, hperm.mem_iff.mpr hp, hk⟩
  · exact ((hperm.map patKey).nodup_iff).mpr
      (buildGroups_spec (db.filter (inWindowUnresolved (now - hours * msPerHour)))).1
  · unfold getErrorPatterns
    exact List.sorted_insertionSort countDesc _

/-- **C7 witness**: on the concrete journal, the `opA` group has count 5 —
the number of unresolved in-window rows sharing its triple. -/
theorem getErrorPatterns_partition_witness :
    exampleGroupA.count =
      (groupRows (exampleDb7.filter (inWindowUnresolved (100 - 4 * msPerHour)))
        (patKey exampleGroupA)).length :=
  ((getErrorPatterns_partition exampleDb7 100 4).1 exampleGroupA (by decide)).1

end Cortex
